import Mathlib

/-
Shallow embedding of the petro-physical calculation engine of
CementingBaru (src/app.py).  Floating-point arithmetic is modelled over
the real numbers; every definition below is translated directly from the
named lines of src/app.py.
-/

open Real

noncomputable section

/-- Embedding of density_temp_correction (src/app.py lines 33-37):
converts ppg to mass density by the factor 7.48052, applies the linear
thermal correction with alpha = 0.00028 relative to T_ref, converts back. -/
def density_temp_correction (ppg T T_ref : ℝ) : ℝ :=
  let rho_ref := ppg * 7.48052
  let alpha := 0.00028
  let rho := rho_ref * (1 - alpha * (T - T_ref))
  rho / 7.48052

/-- Embedding of viscosity_temp_correction (src/app.py lines 39-41):
exponential decay factor exp (-0.015 * (T - T_ref)), result floored at
0.001 cP by max. -/
def viscosity_temp_correction (pv_cP T T_ref : ℝ) : ℝ :=
  let factor := Real.exp (-0.015 * (T - T_ref))
  max 0.001 (pv_cP * factor)

/-- Embedding of annulus_area_ft2 (src/app.py lines 43-45):
pi * (hole_ft^2 - casing_ft^2) / 4 with inches converted to feet by /12. -/
def annulus_area_ft2 (hole_in casing_in : ℝ) : ℝ :=
  let hole_ft := hole_in / 12.0
  let casing_ft := casing_in / 12.0
  Real.pi * (hole_ft ^ 2 - casing_ft ^ 2) / 4.0

/-- Embedding of annulus_hydraulic_diameter_ft (src/app.py lines 47-48):
(hole_in - casing_in) / 12 floored at 0.0001. -/
def annulus_hydraulic_diameter_ft (hole_in casing_in : ℝ) : ℝ :=
  max 0.0001 ((hole_in - casing_in) / 12.0)

/-- Embedding of the annulus volume (src/app.py line 97):
vol_bbl = ann_area * 7.48052 * (depth - toc) / 42.0. -/
def vol_bbl (ann_area depth toc : ℝ) : ℝ :=
  ann_area * 7.48052 * (depth - toc) / 42.0

/-- Embedding of the volume-and-time computation (src/app.py lines 97-98):
the annulus volume together with pump_time = vol_bbl / rate if rate > 0
else 0.0. -/
def compute_volume_and_time (ann_area depth toc rate : ℝ) : ℝ × ℝ :=
  (vol_bbl ann_area depth toc,
   if rate > 0 then vol_bbl ann_area depth toc / rate else 0.0)

/-- Embedding of geom (src/app.py line 110):
geom = max (0.1) (1 + (0.45 - ann_dh)). -/
def geom_factor (ann_dh : ℝ) : ℝ :=
  max 0.1 (1 + (0.45 - ann_dh))

/-- Embedding of friction (src/app.py line 111):
friction = (pv / 10.0) * (rate / 4.0) + (yp / 20.0). -/
def friction_unit (pv rate yp : ℝ) : ℝ :=
  (pv / 10.0) * (rate / 4.0) + (yp / 20.0)

/-- Embedding of friction_psi at one depth sample z (src/app.py line 112):
friction * z / 1000.0 * 50.0 * geom. -/
def friction_psi (pv rate yp ann_dh z : ℝ) : ℝ :=
  friction_unit pv rate yp * z / 1000.0 * 50.0 * geom_factor ann_dh

/-- Embedding of hydro_psi at one depth sample z (src/app.py line 113):
0.052 * density * z. -/
def hydro_psi (density z : ℝ) : ℝ :=
  0.052 * density * z

/-- Embedding of total_psi at one depth sample z (src/app.py line 114). -/
def total_psi (density pv rate yp ann_dh z : ℝ) : ℝ :=
  hydro_psi density z + friction_psi pv rate yp ann_dh z

/-- Embedding of ecd at one depth sample z (src/app.py line 115):
ecd = total_psi / (0.052 * z). -/
def ecd (density pv rate yp ann_dh z : ℝ) : ℝ :=
  total_psi density pv rate yp ann_dh z / (0.052 * z)

/-- Embedding of the placement front (src/app.py lines 189-190):
frac = min 1.0 (t / pump_time) if pump_time > 0 else 0.0;
front = depth - frac * (depth - toc). -/
def compute_placement_front (depth toc t pt : ℝ) : ℝ :=
  let frac := if pt > 0 then min 1.0 (t / pt) else 0.0
  depth - frac * (depth - toc)

/-- C6: density_temp_correction is the identity at the reference
temperature: the conversion by 7.48052 and back cancels exactly when the
thermal term vanishes. -/
theorem C6_density_identity_at_reference (d T_ref : ℝ) :
    density_temp_correction d T_ref T_ref = d := by
  unfold density_temp_correction
  simp only [sub_self, mul_zero, sub_zero, mul_one]
  field_simp

/-- C7: the 0.001 cP floor of viscosity_temp_correction holds
unconditionally, for every base viscosity and every temperature. -/
theorem C7_viscosity_floor (v T T_ref : ℝ) :
    0.001 ≤ viscosity_temp_correction v T T_ref := by
  unfold viscosity_temp_correction
  exact le_max_left _ _

/-- C8: annulus_area_ft2 scales quadratically: doubling both diameters
quadruples the area. -/
theorem C8_area_scales_quadratically (h c : ℝ) :
    annulus_area_ft2 (2 * h) (2 * c) = 4 * annulus_area_ft2 h c := by
  unfold annulus_area_ft2
  ring

/-- C3: for pump_rate ≤ 0 the volume-and-time computation returns
pump_time = 0 as a defined sentinel, with no division, while still
producing the annulus volume. -/
theorem C3_degenerate_rate (area depth toc rate : ℝ) (hr : rate ≤ 0) :
    compute_volume_and_time area depth toc rate = (vol_bbl area depth toc, 0) := by
  unfold compute_volume_and_time
  rw [if_neg (not_lt.mpr hr)]
  simp only [Prod.mk.injEq]
  norm_num

/-- Witness for C3 at the concrete input rate = 0. -/
theorem C3_degenerate_rate_witness :
    (0 : ℝ) ≤ 0 ∧
      compute_volume_and_time 0.2 3000 1500 0 = (vol_bbl 0.2 3000 1500, 0) :=
  ⟨le_refl 0, C3_degenerate_rate 0.2 3000 1500 0 (le_refl 0)⟩

/-- C4: for pump time P > 0 the placement front starts at total depth at
elapsed 0, reaches top of cement at elapsed P, and stays at top of cement
for every elapsed beyond P. -/
theorem C4_placement_front (TD TOC P : ℝ) (hP : 0 < P) :
    compute_placement_front TD TOC 0 P = TD ∧
      compute_placement_front TD TOC P P = TOC ∧
      ∀ t, P < t → compute_placement_front TD TOC t P = TOC := by
  unfold compute_placement_front
  refine ⟨?_, ?_, ?_⟩
  · rw [if_pos hP, zero_div]
    rw [min_eq_right (by norm_num : (0 : ℝ) ≤ 1.0)]
    ring
  · rw [if_pos hP, div_self hP.ne']
    rw [min_eq_right (by norm_num : (1 : ℝ) ≤ 1.0)]
    ring
  · intro t ht
    rw [if_pos hP]
    have h1 : (1.0 : ℝ) ≤ t / P := by
      have h2 := (one_lt_div hP).mpr ht
      norm_num
      linarith
    rw [min_eq_left h1]
    ring

/-- C1 counterexample: with hole = 5.5 in and casing = 8.5 in (casing ≥
hole), annulus_area_ft2 signals no error: it returns a negative area, and
that area flows downstream into a negative annulus volume. -/
theorem C1_counterexample :
    annulus_area_ft2 5.5 8.5 < 0 ∧ vol_bbl (annulus_area_ft2 5.5 8.5) 3000 1500 < 0 := by
  have hpi := Real.pi_pos
  constructor
  · unfold annulus_area_ft2
    nlinarith
  · unfold vol_bbl annulus_area_ft2
    nlinarith

/-- C1 amended: when 0 ≤ hole_diameter_in ≤ casing_od_in the annulus-area
operation raises nothing and silently returns a non-positive area, which
is then used downstream, yielding a non-positive annulus volume whenever
toc ≤ depth. -/
theorem C1_silent_nonpositive_area (hole casing depth toc : ℝ)
    (h0 : 0 ≤ hole) (hc : hole ≤ casing) (hd : toc ≤ depth) :
    annulus_area_ft2 hole casing ≤ 0 ∧
      vol_bbl (annulus_area_ft2 hole casing) depth toc ≤ 0 := by
  have hpi := Real.pi_pos
  have harea : annulus_area_ft2 hole casing ≤ 0 := by
    unfold annulus_area_ft2
    have hsq : hole ^ 2 ≤ casing ^ 2 := by nlinarith
    nlinarith
  refine ⟨harea, ?_⟩
  unfold vol_bbl
  have hdt : (0 : ℝ) ≤ depth - toc := by linarith
  nlinarith [mul_nonneg (neg_nonneg.mpr harea) hdt]

/-- Witness for the amended C1 at hole = 5.5, casing = 8.5, depth = 3000,
toc = 1500. -/
theorem C1_silent_nonpositive_area_witness :
    (0 : ℝ) ≤ 5.5 ∧ (5.5 : ℝ) ≤ 8.5 ∧ (1500 : ℝ) ≤ 3000 ∧
      (annulus_area_ft2 5.5 8.5 ≤ 0 ∧
        vol_bbl (annulus_area_ft2 5.5 8.5) 3000 1500 ≤ 0) :=
  ⟨by norm_num, by norm_num, by norm_num,
    C1_silent_nonpositive_area 5.5 8.5 3000 1500 (by norm_num) (by norm_num)
      (by norm_num)⟩

/-- C2 counterexample: at base viscosity v = 0 the floor makes the
correction constant, so it is not strictly decreasing: for T1 = 100 <
T2 = 200 both temperatures give exactly 0.001 cP. -/
theorem C2_counterexample :
    (100 : ℝ) < 200 ∧
      ¬ (viscosity_temp_correction 0 200 150 < viscosity_temp_correction 0 100 150) := by
  refine ⟨by norm_num, ?_⟩
  simp only [viscosity_temp_correction, zero_mul]
  exact lt_irrefl _

/-- C2 amended: viscosity_temp_correction is weakly decreasing in
temperature for every base viscosity (strictness fails once the 0.001
floor is active, e.g. at non-positive base viscosity). -/
theorem C2_weakly_decreasing (v T_ref T1 T2 : ℝ) (h : T1 ≤ T2) :
    viscosity_temp_correction v T2 T_ref ≤ viscosity_temp_correction v T1 T_ref := by
  simp only [viscosity_temp_correction]
  rcases le_or_lt 0 v with hv | hv
  · have he : Real.exp (-0.015 * (T2 - T_ref)) ≤ Real.exp (-0.015 * (T1 - T_ref)) := by
      apply Real.exp_le_exp.mpr
      linarith
    exact max_le_max (le_refl _) (mul_le_mul_of_nonneg_left he hv)
  · have h1 : v * Real.exp (-0.015 * (T1 - T_ref)) ≤ 0.001 := by
      have he := Real.exp_pos (-0.015 * (T1 - T_ref))
      nlinarith
    have h2 : v * Real.exp (-0.015 * (T2 - T_ref)) ≤ 0.001 := by
      have he := Real.exp_pos (-0.015 * (T2 - T_ref))
      nlinarith
    rw [max_eq_left h1, max_eq_left h2]

/-- Witness for the amended C2 at v = 2, T1 = 100 ≤ T2 = 200, T_ref = 150. -/
theorem C2_weakly_decreasing_witness :
    (100 : ℝ) ≤ 200 ∧
      viscosity_temp_correction 2 200 150 ≤ viscosity_temp_correction 2 100 150 :=
  ⟨by norm_num, C2_weakly_decreasing 2 150 100 200 (by norm_num)⟩

/-- Closed form of the concrete annulus area: with hole = 8.5 in and
casing = 5.5 in the area is pi * 7 / 96 square feet. -/
lemma annulus_area_concrete_eq : annulus_area_ft2 8.5 5.5 = Real.pi * 7 / 96 := by
  unfold annulus_area_ft2
  ring_nf

/-- C9 counterexample: the concrete annulus area pi/4 * ((8.5/12)^2 -
(5.5/12)^2) exceeds 0.229 square feet, so it is not approximately
0.1852 square feet even with a generous 0.04 tolerance. -/
theorem C9_counterexample :
    0.229 < annulus_area_ft2 8.5 5.5 ∧
      ¬ |annulus_area_ft2 8.5 5.5 - 0.1852| < 0.04 := by
  have h := annulus_area_concrete_eq
  have hlo := Real.pi_gt_d6
  have hgt : (0.229 : ℝ) < annulus_area_ft2 8.5 5.5 := by
    rw [h]
    nlinarith
  refine ⟨hgt, ?_⟩
  intro habs
  rw [abs_lt] at habs
  have h2 := habs.2
  linarith

/-- C9 amended: with hole = 8.5 in and casing = 5.5 in the annulus area
is approximately 0.2291 square feet; with total depth 3000 ft and TOC
1500 ft the annulus volume is approximately 61.20 bbl; with rate 4
bbl/min the pump time is approximately 15.30 min. -/
theorem C9_amended :
    (0.229 < annulus_area_ft2 8.5 5.5 ∧ annulus_area_ft2 8.5 5.5 < 0.2291) ∧
      (61.19 < vol_bbl (annulus_area_ft2 8.5 5.5) 3000 1500 ∧
        vol_bbl (annulus_area_ft2 8.5 5.5) 3000 1500 < 61.21) ∧
      (15.29 < (compute_volume_and_time (annulus_area_ft2 8.5 5.5) 3000 1500 4).2 ∧
        (compute_volume_and_time (annulus_area_ft2 8.5 5.5) 3000 1500 4).2 < 15.31) := by
  have h := annulus_area_concrete_eq
  have hlo := Real.pi_gt_d6
  have hhi := Real.pi_lt_d6
  have hv : vol_bbl (annulus_area_ft2 8.5 5.5) 3000 1500 = Real.pi * 187013 / 9600 := by
    unfold vol_bbl
    rw [h]
    ring
  have hsnd : (compute_volume_and_time (annulus_area_ft2 8.5 5.5) 3000 1500 4).2
      = vol_bbl (annulus_area_ft2 8.5 5.5) 3000 1500 / 4 := by
    simp only [compute_volume_and_time]
    rw [if_pos (by norm_num : (4 : ℝ) > 0)]
  have hpt : (compute_volume_and_time (annulus_area_ft2 8.5 5.5) 3000 1500 4).2
      = Real.pi * 187013 / 38400 := by
    rw [hsnd, hv]
    ring
  refine ⟨⟨?_, ?_⟩, ⟨?_, ?_⟩, ⟨?_, ?_⟩⟩
  · rw [h]; nlinarith
  · rw [h]; nlinarith
  · rw [hv]; nlinarith
  · rw [hv]; nlinarith
  · rw [hpt]; nlinarith
  · rw [hpt]; nlinarith

/-- C10: the computed ECD profile is constant in depth: for depths z1,
z2 > 0, the friction pressure being linear through the origin in z makes
the depth dependence cancel, and every sample equals
density + friction_unit * 50 * geom_factor / (0.052 * 1000). -/
theorem C10_ecd_constant_in_depth (density pv rate yp dh z1 z2 : ℝ)
    (h1 : 0 < z1) (h2 : 0 < z2) :
    ecd density pv rate yp dh z1
        = density + friction_unit pv rate yp * 50 * geom_factor dh / (0.052 * 1000) ∧
      ecd density pv rate yp dh z1 = ecd density pv rate yp dh z2 := by
  have key : ∀ z : ℝ, 0 < z →
      ecd density pv rate yp dh z
        = density + friction_unit pv rate yp * 50 * geom_factor dh / (0.052 * 1000) := by
    intro z hz
    unfold ecd total_psi hydro_psi friction_psi
    field_simp
    ring
  exact ⟨key z1 h1, by rw [key z1 h1, key z2 h2]⟩

/-- Witness for C10 at density = 10, pv = 10, rate = 4, yp = 20,
dh = 0.25, depths 100 and 200. -/
theorem C10_ecd_constant_in_depth_witness :
    (0 : ℝ) < 100 ∧ (0 : ℝ) < 200 ∧
      (ecd 10 10 4 20 0.25 100
          = 10 + friction_unit 10 4 20 * 50 * geom_factor 0.25 / (0.052 * 1000) ∧
        ecd 10 10 4 20 0.25 100 = ecd 10 10 4 20 0.25 200) :=
  ⟨by norm_num, by norm_num,
    C10_ecd_constant_in_depth 10 10 4 20 0.25 100 200 (by norm_num) (by norm_num)⟩

/-- Witness for C4 at the concrete inputs TD = 3000, TOC = 1500, P = 10,
and elapsed 20 beyond P. -/
theorem C4_placement_front_witness :
    (0 : ℝ) < 10 ∧
      compute_placement_front 3000 1500 0 10 = 3000 ∧
      compute_placement_front 3000 1500 10 10 = 1500 ∧
      compute_placement_front 3000 1500 20 10 = 1500 := by
  have h := C4_placement_front 3000 1500 10 (by norm_num)
  exact ⟨by norm_num, h.1, h.2.1, h.2.2 20 (by norm_num)⟩

end
